import Mathlib

/-!
Verification of the crypto-algo-trader streaming/decision/simulation pipeline.

The Go sources are embedded shallowly: float64 fields become rationals,
millisecond timestamps become integers, bounded channels become explicit
buffers, and a nil channel is represented by the value none.  Each
definition mirrors one function or type of the repository; the file then
proves or refutes the frozen claims about the specification.
-/

namespace CryptoTrader

/-! ## Data model (internal/model, src/unnamed/part_002) -/

/-- Direction is a string enum in the source ("long", "short", "flat");
the constructor dirUnset stands for the Go zero value "". -/
inductive Direction where
  | dirLong
  | dirShort
  | dirFlat
  | dirUnset
  deriving DecidableEq, Repr

/-- ActionType is a string enum ("NONE", "OPEN", "CLOSE", "UPDATE");
aUnset stands for the Go zero value "". -/
inductive ActionType where
  | aNone
  | aOpen
  | aClose
  | aUpdate
  | aUnset
  deriving DecidableEq, Repr

/-- MarketState is a string enum; msUnset stands for the Go zero value "". -/
inductive MarketState where
  | strongUpTrend
  | strongDownTrend
  | highVolRanging
  | lowVolRanging
  | initializing
  | msUnset
  deriving DecidableEq, Repr

/-- model.Ticker: timestamp in milliseconds. -/
structure Ticker where
  symbol : String
  timestamp : ℤ
  price : ℚ
  volume : ℚ
  isBuyerMaker : Bool
  deriving DecidableEq, Repr

/-- model.KLine.  Times are milliseconds; the field Open of the source is
named openPrice here because open is a keyword. -/
structure KLine where
  symbol : String
  interval : String
  openPrice : ℚ
  high : ℚ
  low : ℚ
  close : ℚ
  volume : ℚ
  startTime : ℤ
  endTime : ℤ
  deriving DecidableEq, Repr

/-- model.Signal.  The Timestamp field (wall clock, time.Now) is omitted. -/
structure Signal where
  symbol : String
  action : ActionType
  direction : Direction
  price : ℚ
  riskedUSD : ℚ
  positionSize : ℚ
  stopLossPrice : ℚ
  takeProfitPrice : ℚ
  sourceState : MarketState
  reason : String
  deriving DecidableEq, Repr

/-- The Go literal model.Signal{Action: ActionNone}: all other fields zero. -/
def noneSignal : Signal :=
  { symbol := ""
    action := ActionType.aNone
    direction := Direction.dirUnset
    price := 0
    riskedUSD := 0
    positionSize := 0
    stopLossPrice := 0
    takeProfitPrice := 0
    sourceState := MarketState.msUnset
    reason := "" }

/-- model.TradeRecord. -/
structure TradeRecord where
  entryTime : ℤ
  exitTime : ℤ
  symbol : String
  posSide : Direction
  entryPrice : ℚ
  exitPrice : ℚ
  size : ℚ
  realizedPnL : ℚ
  fee : ℚ
  triggerReason : String
  deriving DecidableEq, Repr

/-! ## Execution engine (internal/executor/simulator_executor.go) -/

/-- executor.SimulatorConfig. -/
structure SimulatorConfig where
  initialCapital : ℚ
  leverage : ℚ
  feeRate : ℚ
  deriving DecidableEq, Repr

/-- executor.SimulatorPosition; entryTime in milliseconds. -/
structure SimulatorPosition where
  symbol : String
  side : Direction
  size : ℚ
  avgPrice : ℚ
  liquidationPrice : ℚ
  stopLossPrice : ℚ
  takeProfitPrice : ℚ
  upl : ℚ
  entryTime : ℤ
  entryFee : ℚ
  deriving DecidableEq, Repr

/-- The Go literal SimulatorPosition{Side: DirFlat}: every other field zero. -/
def flatPosition : SimulatorPosition :=
  { symbol := ""
    side := Direction.dirFlat
    size := 0
    avgPrice := 0
    liquidationPrice := 0
    stopLossPrice := 0
    takeProfitPrice := 0
    upl := 0
    entryTime := 0
    entryFee := 0 }

/-- executor.SimulatorExecutor account state (channels and logger omitted). -/
structure SimulatorExecutor where
  cfg : SimulatorConfig
  balance : ℚ
  equity : ℚ
  maxEquity : ℚ
  marginUsed : ℚ
  lastPrice : ℚ
  position : SimulatorPosition
  tradeHistory : List TradeRecord
  lastPriceTickerTimestamp : ℤ
  deriving DecidableEq, Repr

/-- executor.NewSimulatorExecutor: balance, equity and maxEquity start at the
initial capital, the position is flat with symbol "Default", and the last
price is initialised to the safety constant 1.0. -/
def NewSimulatorExecutor (cfg : SimulatorConfig) : SimulatorExecutor :=
  { cfg := cfg
    balance := cfg.initialCapital
    equity := cfg.initialCapital
    maxEquity := cfg.initialCapital
    marginUsed := 0
    lastPrice := 1
    position := { flatPosition with symbol := "Default" }
    tradeHistory := []
    lastPriceTickerTimestamp := 0 }

/-- executor.calculateLiquidationPrice. -/
def calculateLiquidationPrice (avgPrice : ℚ) (side : Direction) (leverage : ℚ) : ℚ :=
  if leverage ≤ 0 ∨ side = Direction.dirFlat then 0
  else
    let marginRate := 1 / leverage
    if side = Direction.dirLong then avgPrice * (1 - marginRate)
    else if side = Direction.dirShort then avgPrice * (1 + marginRate)
    else 0

/-- executor.calculateClosedPnL. -/
def calculateClosedPnL (pos : SimulatorPosition) (closePrice : ℚ) : ℚ :=
  if pos.size = 0 ∨ pos.side = Direction.dirFlat then 0
  else if pos.side = Direction.dirLong then (closePrice - pos.avgPrice) * pos.size
  else (pos.avgPrice - closePrice) * pos.size

/-- executor.updateEquity: equity = balance when flat, else balance plus
the unrealized PnL, which is also stored on the position. -/
def SimulatorExecutor.updateEquity (e : SimulatorExecutor) (currentPrice : ℚ) : SimulatorExecutor :=
  if e.position.side = Direction.dirFlat then { e with equity := e.balance }
  else
    let upl :=
      if e.position.side = Direction.dirLong then (currentPrice - e.position.avgPrice) * e.position.size
      else (e.position.avgPrice - currentPrice) * e.position.size
    { e with position := { e.position with upl := upl }, equity := e.balance + upl }

/-- Result of ExecuteSignal: nil error or the insufficient-margin error. -/
inductive ExecResult where
  | ok
  | insufficientMargin
  deriving DecidableEq, Repr

/-- executor.ExecuteSignal.  The fill price is the last observed ticker
price.  The Open branch runs for every Action=OPEN signal (the source has
no flat-position guard); it deducts only the entry fee from the balance and
records the required margin in marginUsed.  The Close branch (only when the
position is not flat) appends a trade record and credits
marginUsed + pnl - closeFee back to the balance. -/
def SimulatorExecutor.executeSignal (e : SimulatorExecutor) (signal : Signal) :
    SimulatorExecutor × ExecResult :=
  let currentPrice := e.lastPrice
  if signal.action = ActionType.aOpen then
    let requiredMargin := signal.positionSize * currentPrice / e.cfg.leverage
    if e.balance < requiredMargin then (e, ExecResult.insufficientMargin)
    else
      let fee := signal.positionSize * currentPrice * e.cfg.feeRate
      let e1 : SimulatorExecutor :=
        { e with
          balance := e.balance - fee
          marginUsed := requiredMargin
          position :=
            { symbol := signal.symbol
              side := signal.direction
              size := signal.positionSize
              avgPrice := currentPrice
              liquidationPrice := calculateLiquidationPrice currentPrice signal.direction e.cfg.leverage
              stopLossPrice := signal.stopLossPrice
              takeProfitPrice := signal.takeProfitPrice
              upl := 0
              entryTime := e.lastPriceTickerTimestamp
              entryFee := fee } }
      (e1.updateEquity currentPrice, ExecResult.ok)
  else if signal.action = ActionType.aClose ∧ e.position.side ≠ Direction.dirFlat then
    let pnl := calculateClosedPnL e.position currentPrice
    let closeFee := e.position.size * currentPrice * e.cfg.feeRate
    let newRecord : TradeRecord :=
      { entryTime := e.position.entryTime
        exitTime := e.lastPriceTickerTimestamp
        symbol := e.position.symbol
        posSide := e.position.side
        entryPrice := e.position.avgPrice
        exitPrice := currentPrice
        size := e.position.size
        realizedPnL := pnl
        fee := e.position.entryFee + closeFee
        triggerReason := "Signal" }
    let e1 : SimulatorExecutor :=
      { e with
        tradeHistory := e.tradeHistory ++ [newRecord]
        balance := e.balance + e.marginUsed + pnl - closeFee
        marginUsed := 0
        position := flatPosition }
    (e1.updateEquity currentPrice, ExecResult.ok)
  else (e.updateEquity currentPrice, ExecResult.ok)

/-- executor.checkStopLoss. -/
def SimulatorExecutor.checkStopLoss (e : SimulatorExecutor) (currentPrice : ℚ) : Bool :=
  if e.position.side = Direction.dirFlat ∨ e.position.stopLossPrice = 0 then false
  else if e.position.side = Direction.dirLong then decide (currentPrice ≤ e.position.stopLossPrice)
  else if e.position.side = Direction.dirShort then decide (e.position.stopLossPrice ≤ currentPrice)
  else false

/-- executor.checkTakeProfit. -/
def SimulatorExecutor.checkTakeProfit (e : SimulatorExecutor) (currentPrice : ℚ) : Bool :=
  if e.position.side = Direction.dirFlat ∨ e.position.takeProfitPrice = 0 then false
  else if e.position.side = Direction.dirLong then decide (e.position.takeProfitPrice ≤ currentPrice)
  else if e.position.side = Direction.dirShort then decide (currentPrice ≤ e.position.takeProfitPrice)
  else false

/-- executor.checkLiquidation. -/
def SimulatorExecutor.checkLiquidation (e : SimulatorExecutor) (currentPrice : ℚ) : Bool :=
  if e.position.side = Direction.dirFlat ∨ e.position.liquidationPrice = 0 then false
  else if e.position.side = Direction.dirLong then decide (currentPrice ≤ e.position.liquidationPrice)
  else if e.position.side = Direction.dirShort then decide (e.position.liquidationPrice ≤ currentPrice)
  else false

/-- One iteration of executor.StartMonitor for one incoming ticker: record
the last price and its timestamp, recompute equity and the peak equity,
then close the position if stop-loss, take-profit or liquidation fires.
The trigger label cascade of the source resolves to: SL wins, then
LIQUIDATION, then TAKE PROFIT.  The record built here fills only the fields
the source fills; the rest are Go zero values. -/
def SimulatorExecutor.monitorStep (e : SimulatorExecutor) (ticker : Ticker) : SimulatorExecutor :=
  let currentPrice := ticker.price
  let e0 := { e with lastPrice := currentPrice, lastPriceTickerTimestamp := ticker.timestamp }
  let e1 := e0.updateEquity currentPrice
  let e2 := if e1.maxEquity < e1.equity then { e1 with maxEquity := e1.equity } else e1
  if e2.position.side ≠ Direction.dirFlat then
    let isSL := e2.checkStopLoss currentPrice
    let isTP := e2.checkTakeProfit currentPrice
    let isLiq := e2.checkLiquidation currentPrice
    if isSL || isTP || isLiq then
      let closedPnL := calculateClosedPnL e2.position currentPrice
      let closeFee := e2.position.size * currentPrice * e2.cfg.feeRate
      let triggerType :=
        if isSL then ("SL")
        else if isLiq then ("LIQUIDATION")
        else if isTP then ("TAKE PROFIT")
        else ("Manual Close")
      let newRecord : TradeRecord :=
        { entryTime := e2.position.entryTime
          exitTime := ticker.timestamp
          symbol := ""
          posSide := Direction.dirUnset
          entryPrice := 0
          exitPrice := 0
          size := 0
          realizedPnL := closedPnL
          fee := 0
          triggerReason := triggerType }
      { e2 with
        tradeHistory := e2.tradeHistory ++ [newRecord]
        balance := e2.balance + e2.marginUsed + closedPnL - closeFee
        marginUsed := 0
        position := flatPosition }
    else e2
  else e2

/-! ## Streaming engine (internal/model/data_engine.go) -/

/-- A bounded Go channel of tickers: buffer plus capacity. -/
structure BoundedChan where
  buffer : List Ticker
  capacity : ℕ
  deriving DecidableEq, Repr

/-- A non-blocking send inside a select with a default branch.  The channel
value none models a nil Go channel: sending on it can never proceed, so the
default branch always fires and the tick is dropped.  A full buffer also
drops the tick. -/
def chanTrySend (ch : Option BoundedChan) (t : Ticker) : Option BoundedChan :=
  match ch with
  | none => none
  | some c =>
      if c.buffer.length < c.capacity then some { c with buffer := c.buffer ++ [t] }
      else some c

/-- model.DataEngine: the two ticker fan-out channels (the kline channel and
the aggregator map are not needed by the claims about the fan-out). -/
structure DataEngine where
  symbol : String
  forwardTickerChan : Option BoundedChan
  broadcasterTickerChan : Option BoundedChan
  deriving DecidableEq, Repr

/-- model.NewDataEngine: allocates the forward channel with capacity 1000.
The broadcaster channel field is never assigned anywhere in the source, so
it keeps its Go zero value nil, modelled as none. -/
def NewDataEngine (symbol : String) : DataEngine :=
  { symbol := symbol
    forwardTickerChan := some { buffer := [], capacity := 1000 }
    broadcasterTickerChan := none }

/-- One iteration of the main loop of model.DataEngine.Start: skip ticks of
other symbols, then perform the two non-blocking fan-out sends. -/
def DataEngine.startStep (de : DataEngine) (t : Ticker) : DataEngine :=
  if t.symbol ≠ de.symbol then de
  else
    { de with
      forwardTickerChan := chanTrySend de.forwardTickerChan t
      broadcasterTickerChan := chanTrySend de.broadcasterTickerChan t }

/-- model.DataEngine.GetBroadcasterTickerChannel. -/
def DataEngine.getBroadcasterTickerChannel (de : DataEngine) : Option BoundedChan :=
  de.broadcasterTickerChan

/-! ## Candle aggregation (internal/model/data_engine.go) -/

/-- The interval duration used by ProcessTicker.  The source assigns
time.Duration(1) * time.Minute unconditionally; the branch on agg.Interval
is an empty placeholder, so every aggregator buckets by one minute. -/
def intervalDurationMs : ℤ := 60000

/-- time.Time.Truncate for millisecond timestamps and a positive divisor:
round down to a multiple of d (integer division on ℤ is euclidean, which is
the floor for a positive divisor). -/
def truncateMs (t d : ℤ) : ℤ := d * (t / d)

/-- model.KlineAggregator.  current = none models the initial KLine whose
StartTime is the zero time (the IsZero test of the source). -/
structure KlineAggregator where
  symbol : String
  interval : String
  current : Option KLine
  deriving DecidableEq, Repr

/-- model.NewKlineAggregator (output channels omitted): the current candle
starts out with the zero StartTime, i.e. none. -/
def NewKlineAggregator (symbol intervalStr : String) : KlineAggregator :=
  { symbol := symbol, interval := intervalStr, current := none }

/-- model.KlineAggregator.ProcessTicker.  Returns the new aggregator state
and the completed candle offered to the output channel, if any.  Bucket
change: the finished candle is emitted and the next one opens with
openPrice = previous close and high/low seeded from the tick price.  First
tick: all four prices are the tick price.  Every call then updates
close/high/low/volume with the tick. -/
def KlineAggregator.processTicker (agg : KlineAggregator) (tk : Ticker) :
    KlineAggregator × Option KLine :=
  let currentKlineStart := truncateMs tk.timestamp intervalDurationMs
  let rotated : Option KLine × Option KLine :=
    match agg.current with
    | some c =>
        if c.startTime < currentKlineStart then
          (some { symbol := agg.symbol
                  interval := agg.interval
                  openPrice := c.close
                  high := tk.price
                  low := tk.price
                  close := 0
                  volume := 0
                  startTime := currentKlineStart
                  endTime := currentKlineStart + intervalDurationMs - 1 },
           some c)
        else (some c, none)
    | none => (none, none)
  let initialized : Option KLine :=
    match rotated.1 with
    | none =>
        some { symbol := agg.symbol
               interval := agg.interval
               openPrice := tk.price
               high := tk.price
               low := tk.price
               close := 0
               volume := 0
               startTime := currentKlineStart
               endTime := currentKlineStart + intervalDurationMs - 1 }
    | some c => some c
  let updated : Option KLine :=
    initialized.map fun c =>
      { c with
        close := tk.price
        high := max c.high tk.price
        low := min c.low tk.price
        volume := c.volume + tk.volume }
  ({ agg with current := updated }, rotated.2)

/-- The five aggregation timeframes of model.NewDataEngine, rendered by
service.FormatInterval, with their durations in milliseconds. -/
def dataEngineIntervalsMs : List (String × ℤ) :=
  [("1m", 60000), ("5m", 300000), ("15m", 900000), ("1h", 3600000), ("4h", 14400000)]

/-- Duration in milliseconds of one of the configured timeframe strings. -/
def intervalMsOf (s : String) : Option ℤ := dataEngineIntervalsMs.lookup s

/-! ## Signal generator (internal/strategy, state_machine.go version) -/

/-- service.RiskConfig, the fields the risk sizing and adaptation read.
defaultRiskReward corresponds to the field DefaultRiskRewardRatio of the
source. -/
structure RiskConfig where
  maxTotalCapital : ℚ
  maxPerTradeRisk : ℚ
  positionScaleFactor : ℚ
  defaultStopLossATRMultiplier : ℚ
  defaultRiskReward : ℚ
  minPositionSize : ℚ
  deriving DecidableEq, Repr

/-- The stop-loss price computed at the top of calculateRiskAndSize:
entry minus ATR times the multiplier for long, plus for short. -/
def stopPriceFor (riskCfg : RiskConfig) (dir : Direction) (entryPrice atr : ℚ)
    (atrFactor : Option ℚ) : ℚ :=
  let factor := atrFactor.getD riskCfg.defaultStopLossATRMultiplier
  let slDistance := atr * factor
  if dir = Direction.dirLong then entryPrice - slDistance else entryPrice + slDistance

/-- strategy.calculateRiskAndSize (the version of the source that applies
the position scale factor and the minimum-size rejection).  The variadic
atrFactor parameter is an Option.  Returns Signal{Action: ActionNone} on
each rejection; on success the Action field is left at its zero value (the
callers overwrite it with ActionOpen). -/
def calculateRiskAndSize (riskCfg : RiskConfig) (dir : Direction) (entryPrice atr : ℚ)
    (atrFactor : Option ℚ) : Signal :=
  let factor := atrFactor.getD riskCfg.defaultStopLossATRMultiplier
  let defaultRRFactor := riskCfg.defaultRiskReward
  let slDistance := atr * factor
  let stopLossPrice :=
    if dir = Direction.dirLong then entryPrice - slDistance else entryPrice + slDistance
  if stopLossPrice ≤ 0 then noneSignal
  else
    let maxRisk := riskCfg.maxTotalCapital * riskCfg.maxPerTradeRisk
    if maxRisk ≤ 0 then noneSignal
    else
      let priceDifference := |entryPrice - stopLossPrice|
      if priceDifference = 0 ∨ slDistance = 0 then noneSignal
      else
        let positionSize := maxRisk / priceDifference
        let tpDistance := slDistance * defaultRRFactor
        let takeProfitPrice :=
          if dir = Direction.dirLong then entryPrice + tpDistance else entryPrice - tpDistance
        let finalPositionSize := positionSize * riskCfg.positionScaleFactor
        if finalPositionSize < riskCfg.minPositionSize then noneSignal
        else
          { symbol := ""
            action := ActionType.aUnset
            direction := dir
            price := entryPrice
            riskedUSD := maxRisk
            positionSize := finalPositionSize
            stopLossPrice := stopLossPrice
            takeProfitPrice := takeProfitPrice
            sourceState := MarketState.msUnset
            reason := "" }

/-- strategy.LookbackTrades. -/
def LookbackTrades : ℕ := 10

/-- model.LossStreakThreshold. -/
def LossStreakThreshold : ℕ := 3

/-- model.MaxAllowedDrawdown = 0.15. -/
def MaxAllowedDrawdown : ℚ := 15 / 100

/-- model.MaxScaleFactor = 1.5. -/
def MaxScaleFactor : ℚ := 3 / 2

/-- model.MinScaleFactor = 0.3. -/
def MinScaleFactor : ℚ := 3 / 10

/-- Loop body of strategy.calculateRecentLosses: the pair is
(max streak so far, current streak); a loss is realizedPnL - fee < 0. -/
def lossStreakStep (acc : ℕ × ℕ) (r : TradeRecord) : ℕ × ℕ :=
  let netPnL := r.realizedPnL - r.fee
  let cur := if netPnL < 0 then acc.2 + 1 else 0
  (max acc.1 cur, cur)

/-- strategy.calculateRecentLosses: maximum consecutive-loss streak over
the last LookbackTrades records, scanned oldest to newest. -/
def calculateRecentLosses (records : List TradeRecord) : ℕ :=
  ((records.drop (records.length - LookbackTrades)).foldl lossStreakStep (0, 0)).1

/-- The adaptation block of strategy.GenerateSignal (section 1.3 of the
source): requires more than 10 trade records; snaps the factor to the
minimum on drawdown at or above the limit; else multiplies by 0.85 on a
loss streak at or above the threshold (floored at the minimum); else
multiplies by 1.05 when there is no loss streak, drawdown is below half the
limit and the factor is below the maximum (capped at the maximum); finally
clamps to [MinScaleFactor, MaxScaleFactor]. -/
def adaptPositionScaleFactor (factor currentEquity maxEquity : ℚ)
    (records : List TradeRecord) : ℚ :=
  if 10 < records.length then
    let recentLossCount := calculateRecentLosses records
    let currentDrawdown := (maxEquity - currentEquity) / maxEquity
    let adjusted :=
      if MaxAllowedDrawdown ≤ currentDrawdown then MinScaleFactor
      else if LossStreakThreshold ≤ recentLossCount then
        let f := factor * (85 / 100)
        if f < MinScaleFactor then MinScaleFactor else f
      else if recentLossCount = 0 ∧ currentDrawdown < MaxAllowedDrawdown / 2 ∧
          factor < MaxScaleFactor then
        let f := factor * (105 / 100)
        if MaxScaleFactor < f then MaxScaleFactor else f
      else factor
    max MinScaleFactor (min MaxScaleFactor adjusted)
  else factor

/-- Minute-within-hour of a millisecond timestamp, as Go time.Time.Minute
computes it in UTC for times at or after the epoch. -/
def minuteOf (tms : ℤ) : ℤ := (tms / 60000) % 60

/-- The adaptation trigger of strategy.GenerateSignal:
kline.Interval == "1h" && kline.EndTime.Minute() == 0. -/
def isAdaptationTime (kline : KLine) : Bool :=
  decide (kline.interval = "1h" ∧ minuteOf kline.endTime = 0)

/-- The position-scale-factor effect of one strategy.GenerateSignal call:
when the adaptation trigger holds, the factor is put through the adaptation
block, otherwise it is left unchanged. -/
def generateSignalScaleFactor (kline : KLine) (factor currentEquity maxEquity : ℚ)
    (records : List TradeRecord) : ℚ :=
  if isAdaptationTime kline then
    adaptPositionScaleFactor factor currentEquity maxEquity records
  else factor


/-! ## Claims -/

/-- Claim C1: with fee rate 0, an Open executed from a flat position with
balance B followed by a Close at the same last-observed price appends a
trade record with realized PnL 0 but leaves the balance at
B + size * price / leverage, not B: ExecuteSignal never debits the
required margin from the balance on open, yet credits marginUsed back on
close.  At initial capital 1000, leverage 10, last price 100, size 1, the
round trip ends with balance 1010. -/
theorem C1_round_trip_inflates_balance :
    ((NewSimulatorExecutor { initialCapital := 1000, leverage := 10, feeRate := 0 }).monitorStep
        ⟨("BTCUSDT"), 1000, 100, 1, false⟩).position.side = Direction.dirFlat ∧
    ((NewSimulatorExecutor { initialCapital := 1000, leverage := 10, feeRate := 0 }).monitorStep
        ⟨("BTCUSDT"), 1000, 100, 1, false⟩).balance = 1000 ∧
    (((NewSimulatorExecutor { initialCapital := 1000, leverage := 10, feeRate := 0 }).monitorStep
        ⟨("BTCUSDT"), 1000, 100, 1, false⟩).executeSignal
      ⟨("BTCUSDT"), ActionType.aOpen, Direction.dirLong, 100, 0, 1, 0, 0, MarketState.msUnset, ("")⟩).2 = ExecResult.ok ∧
    ((((NewSimulatorExecutor { initialCapital := 1000, leverage := 10, feeRate := 0 }).monitorStep
        ⟨("BTCUSDT"), 1000, 100, 1, false⟩).executeSignal
      ⟨("BTCUSDT"), ActionType.aOpen, Direction.dirLong, 100, 0, 1, 0, 0, MarketState.msUnset, ("")⟩).1.executeSignal
      ⟨("BTCUSDT"), ActionType.aClose, Direction.dirLong, 100, 0, 1, 0, 0, MarketState.msUnset, ("")⟩).1.tradeHistory.map TradeRecord.realizedPnL = [0] ∧
    ((((NewSimulatorExecutor { initialCapital := 1000, leverage := 10, feeRate := 0 }).monitorStep
        ⟨("BTCUSDT"), 1000, 100, 1, false⟩).executeSignal
      ⟨("BTCUSDT"), ActionType.aOpen, Direction.dirLong, 100, 0, 1, 0, 0, MarketState.msUnset, ("")⟩).1.executeSignal
      ⟨("BTCUSDT"), ActionType.aClose, Direction.dirLong, 100, 0, 1, 0, 0, MarketState.msUnset, ("")⟩).1.balance = 1010 := by
  norm_num [NewSimulatorExecutor, SimulatorExecutor.monitorStep, SimulatorExecutor.executeSignal,
    SimulatorExecutor.updateEquity, calculateClosedPnL, calculateLiquidationPrice, flatPosition] <;>
    decide

/-- Claim C2: the broadcast channel never receives any tick.
NewDataEngine never allocates broadcasterTickerChan, so it stays nil; the
non-blocking send in Start always falls through to the default branch, and
GetBroadcasterTickerChannel stays none after any sequence of Start-loop
iterations, contradicting the claim that matching ticks are enqueued
whenever the queue is not full. -/
theorem C2_broadcast_never_receives (symbol : String) (ts : List Ticker) :
    (ts.foldl DataEngine.startStep (NewDataEngine symbol)).getBroadcasterTickerChannel = none := by
  have key : ∀ (l : List Ticker) (de : DataEngine), de.broadcasterTickerChan = none →
      (l.foldl DataEngine.startStep de).broadcasterTickerChan = none := by
    intro l
    induction l with
    | nil => intro de hde; exact hde
    | cons t l ih =>
        intro de hde
        simp only [List.foldl_cons]
        apply ih
        unfold DataEngine.startStep
        split_ifs
        · exact hde
        · simp [chanTrySend, hde]
  exact key ts (NewDataEngine symbol) rfl

/-- Claim C3: ProcessTicker buckets by one minute for every timeframe.
A 5m aggregator given a tick at t = 60000 ms opens a candle with
start_time 60000 and end_time 119999 (one-minute bucket), while truncating
60000 to the configured 5m duration (300000 ms) would give start 0 —
contradicting the claim that the bucket uses the aggregator timeframe. -/
theorem C3_bucket_truncated_to_one_minute :
    ((NewKlineAggregator ("BTCUSDT") ("5m")).processTicker
        ⟨("BTCUSDT"), 60000, 100, 1, false⟩).1.current.map KLine.startTime = some 60000 ∧
    ((NewKlineAggregator ("BTCUSDT") ("5m")).processTicker
        ⟨("BTCUSDT"), 60000, 100, 1, false⟩).1.current.map KLine.endTime = some 119999 ∧
    intervalMsOf ("5m") = some 300000 ∧
    truncateMs 60000 300000 = 0 ∧ (60000 : ℤ) ≠ 0 := by
  decide

/-- Claim C4: whenever calculateRiskAndSize does not reject, the emitted
position size equals (max risk / |entry - stop|) times the position scale
factor, and whenever that scaled size is below the minimum position size
the function returns the None signal. -/
theorem C4_position_size_scaled (riskCfg : RiskConfig) (dir : Direction) (entryPrice atr : ℚ)
    (atrFactor : Option ℚ) :
    ((calculateRiskAndSize riskCfg dir entryPrice atr atrFactor).action ≠ ActionType.aNone →
      (calculateRiskAndSize riskCfg dir entryPrice atr atrFactor).positionSize =
        riskCfg.maxTotalCapital * riskCfg.maxPerTradeRisk /
          |entryPrice - stopPriceFor riskCfg dir entryPrice atr atrFactor| *
          riskCfg.positionScaleFactor) ∧
    (riskCfg.maxTotalCapital * riskCfg.maxPerTradeRisk /
        |entryPrice - stopPriceFor riskCfg dir entryPrice atr atrFactor| *
        riskCfg.positionScaleFactor < riskCfg.minPositionSize →
      (calculateRiskAndSize riskCfg dir entryPrice atr atrFactor).action = ActionType.aNone) := by
  simp only [calculateRiskAndSize, stopPriceFor]
  split_ifs <;> refine ⟨fun ha => ?_, fun hb => ?_⟩
  all_goals
    first
      | exact absurd rfl ha
      | exact absurd hb (by assumption)
      | rfl

/-- Witness for C4 at a concrete accepting input. -/
theorem C4_position_size_scaled_witness :
    (calculateRiskAndSize ⟨10000, 1/100, 1/2, 3/2, 3/2, 1/100⟩ Direction.dirLong 100 2 none).action ≠ ActionType.aNone ∧
    (calculateRiskAndSize ⟨10000, 1/100, 1/2, 3/2, 3/2, 1/100⟩ Direction.dirLong 100 2 none).positionSize =
      10000 * (1 / 100) /
        |(100 : ℚ) - stopPriceFor ⟨10000, 1/100, 1/2, 3/2, 3/2, 1/100⟩ Direction.dirLong 100 2 none| *
        (1 / 2) :=
  ⟨by norm_num [calculateRiskAndSize, stopPriceFor, noneSignal] <;> decide,
   (C4_position_size_scaled ⟨10000, 1/100, 1/2, 3/2, 3/2, 1/100⟩ Direction.dirLong 100 2 none).1
     (by norm_num [calculateRiskAndSize, stopPriceFor, noneSignal] <;> decide)⟩

/-- Counterexample to claim C5: after a tick at price 100 and a
bucket-changing tick at price 90, the in-progress candle has open 100 but
high = low = 90, so low <= open <= high fails. -/
theorem C5_open_outside_low_high :
    (((NewKlineAggregator ("BTCUSDT") ("1m")).processTicker ⟨("BTCUSDT"), 0, 100, 1, false⟩).1.processTicker
        ⟨("BTCUSDT"), 60000, 90, 1, false⟩).1.current =
      some ⟨("BTCUSDT"), ("1m"), 100, 90, 90, 90, 1, 60000, 119999⟩ ∧
    ¬((90 : ℚ) ≤ 100 ∧ (100 : ℚ) ≤ 90) := by
  constructor
  · norm_num [NewKlineAggregator, KlineAggregator.processTicker, truncateMs, intervalDurationMs]
  · norm_num

/-- Claim C5 (amended): every candle held or emitted by ProcessTicker
satisfies low <= close <= high; the emitted candle is the previous
in-progress candle unchanged; and the first candle of an aggregator also
satisfies low <= open <= high.  The bound on open is not preserved across
a bucket change, where open is seeded from the previous close. -/
theorem C5_close_within_low_high (agg : KlineAggregator) (tk : Ticker) :
    (∀ c0 : KLine, (agg.processTicker tk).1.current = some c0 →
        c0.low ≤ c0.close ∧ c0.close ≤ c0.high) ∧
    ((agg.processTicker tk).2 = none ∨ (agg.processTicker tk).2 = agg.current) ∧
    (agg.current = none → ∀ c0 : KLine, (agg.processTicker tk).1.current = some c0 →
        c0.low ≤ c0.openPrice ∧ c0.openPrice ≤ c0.high) := by
  cases hc : agg.current with
  | none =>
      simp only [KlineAggregator.processTicker, hc]
      refine ⟨?_, ?_, ?_⟩
      · intro c0 h0
        injection h0 with h0
        subst h0
        exact ⟨min_le_right _ _, le_max_right _ _⟩
      · simp
      · intro _ c0 h0
        injection h0 with h0
        subst h0
        exact ⟨min_le_right _ _, le_max_right _ _⟩
  | some c =>
      by_cases hrot : c.startTime < truncateMs tk.timestamp intervalDurationMs
      · simp only [KlineAggregator.processTicker, hc, if_pos hrot]
        refine ⟨?_, ?_, ?_⟩
        · intro c0 h0
          injection h0 with h0
          subst h0
          exact ⟨min_le_right _ _, le_max_right _ _⟩
        · simp
        · intro hnone
          exact absurd hnone (by simp)
      · simp only [KlineAggregator.processTicker, hc, if_neg hrot]
        refine ⟨?_, ?_, ?_⟩
        · intro c0 h0
          injection h0 with h0
          subst h0
          exact ⟨min_le_right _ _, le_max_right _ _⟩
        · simp
        · intro hnone
          exact absurd hnone (by simp)

/-- Witness for C5 at a concrete aggregator state and tick. -/
theorem C5_close_within_low_high_witness :
    ((5 : ℚ) ≤ 5 ∧ (5 : ℚ) ≤ 5) :=
  (C5_close_within_low_high (NewKlineAggregator ("S") ("1m")) ⟨("S"), 0, 5, 1, false⟩).1
    ⟨("S"), ("1m"), 5, 5, 5, 5, 1, 0, 59999⟩
    (by norm_num [NewKlineAggregator, KlineAggregator.processTicker, truncateMs, intervalDurationMs])

/-- Claim C6: an Open signal executed while the position is non-flat is
not ignored: ExecuteSignal has no flat-position guard, so it replaces the
position, changes the balance by the new entry fee and overwrites the
margin used, contradicting the claim that state is left unchanged. -/
theorem C6_open_while_nonflat_executes :
    (((NewSimulatorExecutor ⟨1000, 10, 1/1000⟩).monitorStep
        ⟨("BTCUSDT"), 1000, 100, 1, false⟩).executeSignal
      ⟨("BTCUSDT"), ActionType.aOpen, Direction.dirLong, 100, 0, 1, 0, 0, MarketState.msUnset, ("")⟩).1.position.side ≠ Direction.dirFlat ∧
    ((((NewSimulatorExecutor ⟨1000, 10, 1/1000⟩).monitorStep
        ⟨("BTCUSDT"), 1000, 100, 1, false⟩).executeSignal
      ⟨("BTCUSDT"), ActionType.aOpen, Direction.dirLong, 100, 0, 1, 0, 0, MarketState.msUnset, ("")⟩).1.executeSignal
      ⟨("BTCUSDT"), ActionType.aOpen, Direction.dirShort, 100, 0, 2, 0, 0, MarketState.msUnset, ("")⟩).1.position.size = 2 ∧
    ((((NewSimulatorExecutor ⟨1000, 10, 1/1000⟩).monitorStep
        ⟨("BTCUSDT"), 1000, 100, 1, false⟩).executeSignal
      ⟨("BTCUSDT"), ActionType.aOpen, Direction.dirLong, 100, 0, 1, 0, 0, MarketState.msUnset, ("")⟩).1.executeSignal
      ⟨("BTCUSDT"), ActionType.aOpen, Direction.dirShort, 100, 0, 2, 0, 0, MarketState.msUnset, ("")⟩).1.position.side = Direction.dirShort ∧
    ((((NewSimulatorExecutor ⟨1000, 10, 1/1000⟩).monitorStep
        ⟨("BTCUSDT"), 1000, 100, 1, false⟩).executeSignal
      ⟨("BTCUSDT"), ActionType.aOpen, Direction.dirLong, 100, 0, 1, 0, 0, MarketState.msUnset, ("")⟩).1.executeSignal
      ⟨("BTCUSDT"), ActionType.aOpen, Direction.dirShort, 100, 0, 2, 0, 0, MarketState.msUnset, ("")⟩).1.balance ≠ (((NewSimulatorExecutor ⟨1000, 10, 1/1000⟩).monitorStep
        ⟨("BTCUSDT"), 1000, 100, 1, false⟩).executeSignal
      ⟨("BTCUSDT"), ActionType.aOpen, Direction.dirLong, 100, 0, 1, 0, 0, MarketState.msUnset, ("")⟩).1.balance ∧
    ((((NewSimulatorExecutor ⟨1000, 10, 1/1000⟩).monitorStep
        ⟨("BTCUSDT"), 1000, 100, 1, false⟩).executeSignal
      ⟨("BTCUSDT"), ActionType.aOpen, Direction.dirLong, 100, 0, 1, 0, 0, MarketState.msUnset, ("")⟩).1.executeSignal
      ⟨("BTCUSDT"), ActionType.aOpen, Direction.dirShort, 100, 0, 2, 0, 0, MarketState.msUnset, ("")⟩).1.marginUsed ≠ (((NewSimulatorExecutor ⟨1000, 10, 1/1000⟩).monitorStep
        ⟨("BTCUSDT"), 1000, 100, 1, false⟩).executeSignal
      ⟨("BTCUSDT"), ActionType.aOpen, Direction.dirLong, 100, 0, 1, 0, 0, MarketState.msUnset, ("")⟩).1.marginUsed := by
  norm_num [NewSimulatorExecutor, SimulatorExecutor.monitorStep, SimulatorExecutor.executeSignal,
    SimulatorExecutor.updateEquity, calculateClosedPnL, calculateLiquidationPrice, flatPosition] <;>
    decide

/-- Counterexample to claim C7: at entry 100, long, ATR 2, multiplier 1.5,
RR 1.5, the computed take-profit price is not 101.5 (= 203/2). -/
theorem C7_takeprofit_not_101_5 :
    (calculateRiskAndSize ⟨10000, 1/100, 1, 3/2, 3/2, 1/100⟩ Direction.dirLong 100 2 none).takeProfitPrice ≠ 203 / 2 := by
  norm_num [calculateRiskAndSize, noneSignal] <;> decide

/-- Claim C7 (amended): at entry 100, long, ATR 2, multiplier 1.5,
capital 10000, risk fraction 0.01, RR 1.5 and scale factor 1, the risk
sizing returns stop 97, take-profit 104.5 (= entry + stop distance * RR,
not 101.5), risked USD 100 and position size 100/3. -/
theorem C7_scenario_values :
    (calculateRiskAndSize ⟨10000, 1/100, 1, 3/2, 3/2, 1/100⟩ Direction.dirLong 100 2 none).stopLossPrice = 97 ∧
    (calculateRiskAndSize ⟨10000, 1/100, 1, 3/2, 3/2, 1/100⟩ Direction.dirLong 100 2 none).takeProfitPrice = 209 / 2 ∧
    (calculateRiskAndSize ⟨10000, 1/100, 1, 3/2, 3/2, 1/100⟩ Direction.dirLong 100 2 none).riskedUSD = 100 ∧
    (calculateRiskAndSize ⟨10000, 1/100, 1, 3/2, 3/2, 1/100⟩ Direction.dirLong 100 2 none).positionSize = 100 / 3 ∧
    (calculateRiskAndSize ⟨10000, 1/100, 1, 3/2, 3/2, 1/100⟩ Direction.dirLong 100 2 none).action ≠ ActionType.aNone := by
  norm_num [calculateRiskAndSize, noneSignal] <;> decide

/-- Claim C8: after every adaptation step, for any equity, peak equity and
trade-history inputs and any prior factor in [0.3, 1.5], the position
scale factor stays within [0.3, 1.5]. -/
theorem C8_scale_factor_bounds (factor currentEquity maxEquity : ℚ) (records : List TradeRecord)
    (hlo : MinScaleFactor ≤ factor) (hhi : factor ≤ MaxScaleFactor) :
    MinScaleFactor ≤ adaptPositionScaleFactor factor currentEquity maxEquity records ∧
      adaptPositionScaleFactor factor currentEquity maxEquity records ≤ MaxScaleFactor := by
  unfold adaptPositionScaleFactor
  by_cases hlen : 10 < records.length
  · rw [if_pos hlen]
    refine ⟨le_max_left _ _, max_le ?_ (min_le_left _ _)⟩
    norm_num [MinScaleFactor, MaxScaleFactor]
  · rw [if_neg hlen]
    exact ⟨hlo, hhi⟩

/-- Witness for C8 at a concrete adaptation input with 11 records. -/
theorem C8_scale_factor_bounds_witness :
    (MinScaleFactor ≤ (1 : ℚ) ∧ (1 : ℚ) ≤ MaxScaleFactor) ∧
    MinScaleFactor ≤ adaptPositionScaleFactor 1 90 100
        (List.replicate 11 ⟨0, 0, (""), Direction.dirUnset, 0, 0, 0, 0, 0, ("")⟩) ∧
    adaptPositionScaleFactor 1 90 100
        (List.replicate 11 ⟨0, 0, (""), Direction.dirUnset, 0, 0, 0, 0, 0, ("")⟩) ≤ MaxScaleFactor :=
  ⟨⟨by norm_num [MinScaleFactor], by norm_num [MaxScaleFactor]⟩,
   C8_scale_factor_bounds 1 90 100 (List.replicate 11 ⟨0, 0, (""), Direction.dirUnset, 0, 0, 0, 0, 0, ("")⟩)
     (by norm_num [MinScaleFactor]) (by norm_num [MaxScaleFactor])⟩

/-- Claim C9: for every hourly candle as the data model defines it
(start aligned to the hour, end = start + 1h - 1ms), the adaptation
trigger of GenerateSignal is false — the end time is always at minute 59,
never minute 0 — so the scale factor is left unchanged for every equity,
peak and history input, contradicting the claim that adaptation runs on
hourly closes with at least 11 records. -/
theorem C9_hourly_candle_never_adapts (sym : String) (o h l c v : ℚ) (start : ℤ)
    (factor currentEquity maxEquity : ℚ) (records : List TradeRecord)
    (hstart : 3600000 ∣ start) :
    generateSignalScaleFactor
      { symbol := sym, interval := ("1h"), openPrice := o, high := h, low := l, close := c,
        volume := v, startTime := start, endTime := start + 3600000 - 1 }
      factor currentEquity maxEquity records = factor := by
  obtain ⟨k, rfl⟩ := hstart
  unfold generateSignalScaleFactor isAdaptationTime minuteOf
  rw [if_neg]
  simp only [decide_eq_true_eq, not_and]
  intro _
  omega

/-- Witness for C9 at the hourly candle starting at the epoch. -/
theorem C9_hourly_candle_never_adapts_witness :
    generateSignalScaleFactor
      { symbol := ("BTCUSDT"), interval := ("1h"), openPrice := 1, high := 2, low := 1, close := 2,
        volume := 3, startTime := 0, endTime := 0 + 3600000 - 1 }
      1 90 100 (List.replicate 11 ⟨0, 0, (""), Direction.dirUnset, 0, 0, -1, 0, 0, ("")⟩) = 1 :=
  C9_hourly_candle_never_adapts ("BTCUSDT") 1 2 1 2 3 0 1 90 100
    (List.replicate 11 ⟨0, 0, (""), Direction.dirUnset, 0, 0, -1, 0, 0, ("")⟩) (dvd_zero _)

/-- Claim C10: an Open executed before any tick is observed fills at the
initialisation constant 1.0: the stored average price is 1 and the
required margin is size * 1 / leverage, for every signal regardless of its
quoted price. -/
theorem C10_open_fills_at_init_price (cfg : SimulatorConfig) (s : Signal)
    (hact : s.action = ActionType.aOpen)
    (hlev : 0 < cfg.leverage)
    (hmargin : ¬ cfg.initialCapital < s.positionSize * 1 / cfg.leverage) :
    ((NewSimulatorExecutor cfg).executeSignal s).2 = ExecResult.ok ∧
    ((NewSimulatorExecutor cfg).executeSignal s).1.position.avgPrice = 1 ∧
    ((NewSimulatorExecutor cfg).executeSignal s).1.marginUsed = s.positionSize * 1 / cfg.leverage := by
  simp only [mul_one] at hmargin
  simp [SimulatorExecutor.executeSignal, NewSimulatorExecutor, SimulatorExecutor.updateEquity,
    hact, hmargin]
  all_goals split <;> simp_all

/-- Witness for C10 with a signal quoting price 55. -/
theorem C10_open_fills_at_init_price_witness :
    ((NewSimulatorExecutor ⟨1000, 10, 0⟩).executeSignal
        ⟨("BTCUSDT"), ActionType.aOpen, Direction.dirLong, 55, 0, 1, 0, 0, MarketState.msUnset, ("")⟩).2 = ExecResult.ok ∧
    ((NewSimulatorExecutor ⟨1000, 10, 0⟩).executeSignal
        ⟨("BTCUSDT"), ActionType.aOpen, Direction.dirLong, 55, 0, 1, 0, 0, MarketState.msUnset, ("")⟩).1.position.avgPrice = 1 ∧
    ((NewSimulatorExecutor ⟨1000, 10, 0⟩).executeSignal
        ⟨("BTCUSDT"), ActionType.aOpen, Direction.dirLong, 55, 0, 1, 0, 0, MarketState.msUnset, ("")⟩).1.marginUsed = 1 * 1 / 10 :=
  C10_open_fills_at_init_price ⟨1000, 10, 0⟩
    ⟨("BTCUSDT"), ActionType.aOpen, Direction.dirLong, 55, 0, 1, 0, 0, MarketState.msUnset, ("")⟩
    rfl (by show (0 : ℚ) < 10; norm_num) (by show ¬ (1000 : ℚ) < 1 * 1 / 10; norm_num)

end CryptoTrader
